import Mathlib

/-!
Shallow embedding of `src/unplug/src/stage/stage.rs` (stage container I/O)
together with spec-modelled fragments of the script engine (`ScriptReader`,
`ScriptWriter`, `NonNoneList`) that live outside the provided sources.

Byte streams are `List Nat` (each element a byte value `< 256` whenever it
was produced by one of the encoders below).  Sequential reads consume a
listed stream; `Stage::write_to`, which seeks, is modelled on a positioned
overwrite buffer (`WStream`).
-/

namespace Unplug

/-- Encode a `u32` value in little-endian byte order (`byteorder::LE`). -/
def u32leBytes (n : Nat) : List Nat :=
  [n % 256, n / 256 % 256, n / 65536 % 256, n / 16777216 % 256]

/-- Encode a `u32` value in big-endian byte order (`byteorder::BE`). -/
def u32beBytes (n : Nat) : List Nat :=
  [n / 16777216 % 256, n / 65536 % 256, n / 256 % 256, n % 256]

/-- Two's-complement representation of an `i32` as a nonnegative value. -/
def i32Repr (x : Int) : Nat := (x % 4294967296).toNat

/-- Encode an `i32` in big-endian byte order. -/
def i32beBytes (x : Int) : List Nat :=
  u32beBytes (i32Repr x)

/-- Encode an `i32` in little-endian byte order. -/
def i32leBytes (x : Int) : List Nat :=
  u32leBytes (i32Repr x)

/-- Encode an `i16` in big-endian byte order. -/
def i16beBytes (x : Int) : List Nat :=
  [(x % 65536).toNat / 256 % 256, (x % 65536).toNat % 256]

/-- Encode a `u8`. -/
def u8Bytes (n : Nat) : List Nat := [n % 256]

/-- Value of four little-endian bytes as an unsigned 32-bit integer. -/
def u32FromLE (b0 b1 b2 b3 : Nat) : Nat :=
  b0 + 256 * b1 + 65536 * b2 + 16777216 * b3

/-- Value of four big-endian bytes as a signed 32-bit integer. -/
def i32FromBE (b0 b1 b2 b3 : Nat) : Int :=
  let n := ((b0 * 256 + b1) * 256 + b2) * 256 + b3
  if n < 2147483648 then (n : Int) else (n : Int) - 4294967296

/-- Value of two big-endian bytes as a signed 16-bit integer. -/
def i16FromBE (b0 b1 : Nat) : Int :=
  let n := b0 * 256 + b1
  if n < 32768 then (n : Int) else (n : Int) - 65536

/-- Stream read of a little-endian `u32` (`reader.read_u32::<LE>()`). -/
def readU32LE : List Nat → Option (Nat × List Nat)
  | b0 :: b1 :: b2 :: b3 :: rest => some (u32FromLE b0 b1 b2 b3, rest)
  | _ => none

/-- Stream read of a big-endian `i32` (`reader.read_i32::<BE>()`). -/
def readI32BE : List Nat → Option (Int × List Nat)
  | b0 :: b1 :: b2 :: b3 :: rest => some (i32FromBE b0 b1 b2 b3, rest)
  | _ => none

/-- Stream read of a big-endian `i16` (`reader.read_i16::<BE>()`). -/
def readI16BE : List Nat → Option (Int × List Nat)
  | b0 :: b1 :: rest => some (i16FromBE b0 b1, rest)
  | _ => none

/-- Stream read of a `u8` (`reader.read_u8()`). -/
def readU8 : List Nat → Option (Nat × List Nat)
  | b :: rest => some (b, rest)
  | _ => none

/-- Semantics of `NonZeroU32::new`: `0` becomes `none`, anything else `some`. -/
def nonZeroU32New (n : Nat) : Option Nat :=
  if n = 0 then none else some n

/-- Error type for the embedded stage layer (`Error::InvalidHeader` plus
propagated I/O failure on a truncated stream). -/
inductive Error where
  | invalidHeader
  | ioTruncated
  deriving DecidableEq, Repr

instance {ε α : Type} [DecidableEq ε] [DecidableEq α] : DecidableEq (Except ε α) := fun x y =>
  match x, y with
  | Except.ok a, Except.ok b => decidable_of_iff (a = b) (by simp)
  | Except.error a, Except.error b => decidable_of_iff (a = b) (by simp)
  | Except.ok _, Except.error _ => isFalse (by simp)
  | Except.error _, Except.ok _ => isFalse (by simp)

/-- Constant `HEADER_SIZE` from the source. -/
def HEADER_SIZE : Nat := 52

/-- Constant `SETTINGS_SIZE` from the source. -/
def SETTINGS_SIZE : Nat := 20

/-- Constant `EXPECTED_SETTINGS_OFFSET` from the source. -/
def EXPECTED_SETTINGS_OFFSET : Nat := HEADER_SIZE

/-- Constant `EXPECTED_OBJECTS_OFFSET` from the source. -/
def EXPECTED_OBJECTS_OFFSET : Nat := EXPECTED_SETTINGS_OFFSET + SETTINGS_SIZE

/-- The `Header` struct: offsets are `u32` values, the optional fields are
`Option<NonZeroU32>` values modelled as `Option Nat`. -/
structure Header where
  settings_offset : Nat
  objects_offset : Nat
  events_offset : Nat
  on_prologue : Option Nat
  on_startup : Option Nat
  on_dead : Option Nat
  on_pose : Option Nat
  on_time_cycle : Option Nat
  on_time_up : Option Nat
  actors_offset : Nat
  unk_28_offset : Option Nat
  unk_2c_offset : Option Nat
  unk_30_offset : Option Nat
  deriving DecidableEq, Repr

/-- The `Header::default()` value: numeric fields `0`, optional fields `None`. -/
def Header.default : Header :=
  ⟨0, 0, 0, none, none, none, none, none, none, 0, none, none, none⟩

/-- Read of a little-endian `u32` with the `?` operator: a short stream is a
propagated I/O error. -/
def rdU32 (s : List Nat) : Except Error (Nat × List Nat) :=
  match readU32LE s with
  | some r => Except.ok r
  | none => Except.error Error.ioTruncated

/-- Embedding of `Header::read_from`: thirteen sequential little-endian `u32`
reads, with the settings/objects offset check after the first two and
`NonZeroU32::new` applied to the hook and trailer-offset fields. -/
def Header.read_from (s : List Nat) : Except Error (Header × List Nat) := do
  let (settings_offset, s) ← rdU32 s
  let (objects_offset, s) ← rdU32 s
  if settings_offset ≠ EXPECTED_SETTINGS_OFFSET ∨ objects_offset ≠ EXPECTED_OBJECTS_OFFSET then
    Except.error Error.invalidHeader
  else do
    let (events_offset, s) ← rdU32 s
    let (v0c, s) ← rdU32 s
    let (v10, s) ← rdU32 s
    let (v14, s) ← rdU32 s
    let (v18, s) ← rdU32 s
    let (v1c, s) ← rdU32 s
    let (v20, s) ← rdU32 s
    let (actors_offset, s) ← rdU32 s
    let (v28, s) ← rdU32 s
    let (v2c, s) ← rdU32 s
    let (v30, s) ← rdU32 s
    Except.ok
      ({ settings_offset, objects_offset, events_offset,
         on_prologue := nonZeroU32New v0c,
         on_startup := nonZeroU32New v10,
         on_dead := nonZeroU32New v14,
         on_pose := nonZeroU32New v18,
         on_time_cycle := nonZeroU32New v1c,
         on_time_up := nonZeroU32New v20,
         actors_offset,
         unk_28_offset := nonZeroU32New v28,
         unk_2c_offset := nonZeroU32New v2c,
         unk_30_offset := nonZeroU32New v30 }, s)

/-- Wellformedness of an `Option<NonZeroU32>` value: a present value is
nonzero and fits in 32 bits. -/
def optWF (o : Option Nat) : Prop :=
  match o with
  | none => True
  | some v => 0 < v ∧ v < 4294967296

instance (o : Option Nat) : Decidable (optWF o) := by
  unfold optWF
  cases o <;> infer_instance

/-- Wellformedness of a `Header` value: every `u32` field is in range and
every optional field satisfies `optWF`. -/
def Header.WF (h : Header) : Prop :=
  h.settings_offset < 4294967296 ∧ h.objects_offset < 4294967296 ∧
  h.events_offset < 4294967296 ∧ h.actors_offset < 4294967296 ∧
  optWF h.on_prologue ∧ optWF h.on_startup ∧ optWF h.on_dead ∧
  optWF h.on_pose ∧ optWF h.on_time_cycle ∧ optWF h.on_time_up ∧
  optWF h.unk_28_offset ∧ optWF h.unk_2c_offset ∧ optWF h.unk_30_offset

instance (h : Header) : Decidable (Header.WF h) := by
  unfold Header.WF
  infer_instance

/-- Value written for an `Option<NonZeroU32>` field:
`o.map(|o| o.get()).unwrap_or(0)`. -/
def optU32 (o : Option Nat) : Nat := o.getD 0

/-- Embedding of `Header::write_to`: thirteen little-endian `u32` writes. -/
def Header.write_to (h : Header) : List Nat :=
  u32leBytes h.settings_offset ++
  u32leBytes h.objects_offset ++
  u32leBytes h.events_offset ++
  u32leBytes (optU32 h.on_prologue) ++
  u32leBytes (optU32 h.on_startup) ++
  u32leBytes (optU32 h.on_dead) ++
  u32leBytes (optU32 h.on_pose) ++
  u32leBytes (optU32 h.on_time_cycle) ++
  u32leBytes (optU32 h.on_time_up) ++
  u32leBytes h.actors_offset ++
  u32leBytes (optU32 h.unk_28_offset) ++
  u32leBytes (optU32 h.unk_2c_offset) ++
  u32leBytes (optU32 h.unk_30_offset)

/-- The thirteen scalar fields of a header, in stream order, with optional
fields replaced by their written value. -/
def Header.scalarFields (h : Header) : List Nat :=
  [h.settings_offset, h.objects_offset, h.events_offset,
   optU32 h.on_prologue, optU32 h.on_startup, optU32 h.on_dead,
   optU32 h.on_pose, optU32 h.on_time_cycle, optU32 h.on_time_up,
   h.actors_offset, optU32 h.unk_28_offset, optU32 h.unk_2c_offset,
   optU32 h.unk_30_offset]

/-- Header encoding with every scalar in little-endian order, defined
independently of `Header.write_to` for comparison. -/
def headerBytesLE (h : Header) : List Nat :=
  ((Header.scalarFields h).map u32leBytes).flatten

/-- Modelled from the spec: the header encoding the specification's
big-endian-everywhere reading would require, with every scalar in
big-endian order. -/
def headerBytesBE (h : Header) : List Nat :=
  ((Header.scalarFields h).map u32beBytes).flatten

/-- The `Settings` struct (`unk_00` is `i32`, the one-byte fields are `u8`,
the rest are `i16`). -/
structure Settings where
  unk_00 : Int
  unk_04 : Nat
  unk_05 : Nat
  unk_06 : Int
  unk_08 : Nat
  unk_09 : Nat
  item_flags_base : Int
  coin_flags_base : Int
  dust_flags_base : Int
  unk_10 : Int
  unk_12 : Int
  deriving DecidableEq, Repr

/-- Embedding of `Settings::write_to`: big-endian scalar writes in field
order. -/
def Settings.write_to (s : Settings) : List Nat :=
  i32beBytes s.unk_00 ++
  u8Bytes s.unk_04 ++
  u8Bytes s.unk_05 ++
  i16beBytes s.unk_06 ++
  u8Bytes s.unk_08 ++
  u8Bytes s.unk_09 ++
  i16beBytes s.item_flags_base ++
  i16beBytes s.coin_flags_base ++
  i16beBytes s.dust_flags_base ++
  i16beBytes s.unk_10 ++
  i16beBytes s.unk_12

/-- Wellformedness of a `Settings` value: every field is in the range of its
machine type. -/
def Settings.WF (s : Settings) : Prop :=
  -2147483648 ≤ s.unk_00 ∧ s.unk_00 < 2147483648 ∧
  s.unk_04 < 256 ∧ s.unk_05 < 256 ∧
  -32768 ≤ s.unk_06 ∧ s.unk_06 < 32768 ∧
  s.unk_08 < 256 ∧ s.unk_09 < 256 ∧
  -32768 ≤ s.item_flags_base ∧ s.item_flags_base < 32768 ∧
  -32768 ≤ s.coin_flags_base ∧ s.coin_flags_base < 32768 ∧
  -32768 ≤ s.dust_flags_base ∧ s.dust_flags_base < 32768 ∧
  -32768 ≤ s.unk_10 ∧ s.unk_10 < 32768 ∧
  -32768 ≤ s.unk_12 ∧ s.unk_12 < 32768

instance (s : Settings) : Decidable (Settings.WF s) := by
  unfold Settings.WF
  infer_instance

/-- The `EventTable` struct: one `u32` entry point per object. -/
structure EventTable where
  entry_points : List Nat
  deriving DecidableEq, Repr

/-- Embedding of `EventTable::write_to`: the entry points as little-endian
`u32` values followed by a little-endian `-1` terminator. -/
def EventTable.write_to (t : EventTable) : List Nat :=
  (t.entry_points.map u32leBytes).flatten ++ i32leBytes (-1)

/-- Event-table encoding with every scalar in little-endian order, defined
independently of `EventTable.write_to` for comparison. -/
def eventTableBytesLE (t : EventTable) : List Nat :=
  (t.entry_points.map u32leBytes).flatten ++ i32leBytes (-1)

/-- Modelled from the spec: the event-table encoding the specification's
big-endian-everywhere reading would require. -/
def eventTableBytesBE (t : EventTable) : List Nat :=
  (t.entry_points.map u32beBytes).flatten ++ i32beBytes (-1)

/-- The `Unk28` struct: twelve `i32` fields and two `i16` fields. -/
structure Unk28 where
  unk_00 : Int
  unk_04 : Int
  unk_08 : Int
  unk_0c : Int
  unk_10 : Int
  unk_14 : Int
  unk_18 : Int
  unk_1c : Int
  unk_20 : Int
  unk_24 : Int
  unk_28 : Int
  unk_2c : Int
  unk_2e : Int
  unk_30 : Int
  deriving DecidableEq, Repr

/-- Embedding of `Unk28`'s `ReadOptionFrom`: read the first big-endian `i32`;
`-1` is the list sentinel and yields `None` with nothing further consumed,
any other value is the first field of a full record. -/
def Unk28.read_option_from (s : List Nat) : Option (Option Unk28 × List Nat) := do
  let (unk_00, s) ← readI32BE s
  if unk_00 = -1 then
    some (none, s)
  else do
    let (unk_04, s) ← readI32BE s
    let (unk_08, s) ← readI32BE s
    let (unk_0c, s) ← readI32BE s
    let (unk_10, s) ← readI32BE s
    let (unk_14, s) ← readI32BE s
    let (unk_18, s) ← readI32BE s
    let (unk_1c, s) ← readI32BE s
    let (unk_20, s) ← readI32BE s
    let (unk_24, s) ← readI32BE s
    let (unk_28, s) ← readI32BE s
    let (unk_2c, s) ← readI16BE s
    let (unk_2e, s) ← readI16BE s
    let (unk_30, s) ← readI32BE s
    some (some { unk_00, unk_04, unk_08, unk_0c, unk_10, unk_14, unk_18,
                 unk_1c, unk_20, unk_24, unk_28, unk_2c, unk_2e, unk_30 }, s)

/-- Embedding of `Unk28::write_to`: big-endian writes in field order. -/
def Unk28.write_to (u : Unk28) : List Nat :=
  i32beBytes u.unk_00 ++ i32beBytes u.unk_04 ++ i32beBytes u.unk_08 ++
  i32beBytes u.unk_0c ++ i32beBytes u.unk_10 ++ i32beBytes u.unk_14 ++
  i32beBytes u.unk_18 ++ i32beBytes u.unk_1c ++ i32beBytes u.unk_20 ++
  i32beBytes u.unk_24 ++ i32beBytes u.unk_28 ++ i16beBytes u.unk_2c ++
  i16beBytes u.unk_2e ++ i32beBytes u.unk_30

/-- Embedding of `Unk28`'s `WriteOptionTo`: a present record is written
whole, an absent one as the big-endian `-1` sentinel. -/
def Unk28.write_option_to : Option Unk28 → List Nat
  | some x => x.write_to
  | none => i32beBytes (-1)

/-- Wellformedness of an `Unk28` value: every field in machine range. -/
def Unk28.WF (u : Unk28) : Prop :=
  (-2147483648 ≤ u.unk_00 ∧ u.unk_00 < 2147483648) ∧
  (-2147483648 ≤ u.unk_04 ∧ u.unk_04 < 2147483648) ∧
  (-2147483648 ≤ u.unk_08 ∧ u.unk_08 < 2147483648) ∧
  (-2147483648 ≤ u.unk_0c ∧ u.unk_0c < 2147483648) ∧
  (-2147483648 ≤ u.unk_10 ∧ u.unk_10 < 2147483648) ∧
  (-2147483648 ≤ u.unk_14 ∧ u.unk_14 < 2147483648) ∧
  (-2147483648 ≤ u.unk_18 ∧ u.unk_18 < 2147483648) ∧
  (-2147483648 ≤ u.unk_1c ∧ u.unk_1c < 2147483648) ∧
  (-2147483648 ≤ u.unk_20 ∧ u.unk_20 < 2147483648) ∧
  (-2147483648 ≤ u.unk_24 ∧ u.unk_24 < 2147483648) ∧
  (-2147483648 ≤ u.unk_28 ∧ u.unk_28 < 2147483648) ∧
  (-32768 ≤ u.unk_2c ∧ u.unk_2c < 32768) ∧
  (-32768 ≤ u.unk_2e ∧ u.unk_2e < 32768) ∧
  (-2147483648 ≤ u.unk_30 ∧ u.unk_30 < 2147483648)

instance (u : Unk28) : Decidable (Unk28.WF u) := by
  unfold Unk28.WF
  infer_instance

/-- The `Unk2C` struct: eight `i32` fields. -/
structure Unk2C where
  unk_00 : Int
  unk_04 : Int
  unk_08 : Int
  unk_0c : Int
  unk_10 : Int
  unk_14 : Int
  unk_18 : Int
  unk_1c : Int
  deriving DecidableEq, Repr

/-- Embedding of `Unk2C`'s `ReadOptionFrom`; same sentinel convention as
`Unk28.read_option_from`. -/
def Unk2C.read_option_from (s : List Nat) : Option (Option Unk2C × List Nat) := do
  let (unk_00, s) ← readI32BE s
  if unk_00 = -1 then
    some (none, s)
  else do
    let (unk_04, s) ← readI32BE s
    let (unk_08, s) ← readI32BE s
    let (unk_0c, s) ← readI32BE s
    let (unk_10, s) ← readI32BE s
    let (unk_14, s) ← readI32BE s
    let (unk_18, s) ← readI32BE s
    let (unk_1c, s) ← readI32BE s
    some (some { unk_00, unk_04, unk_08, unk_0c, unk_10, unk_14, unk_18,
                 unk_1c }, s)

/-- Embedding of `Unk2C::write_to`: big-endian writes in field order. -/
def Unk2C.write_to (u : Unk2C) : List Nat :=
  i32beBytes u.unk_00 ++ i32beBytes u.unk_04 ++ i32beBytes u.unk_08 ++
  i32beBytes u.unk_0c ++ i32beBytes u.unk_10 ++ i32beBytes u.unk_14 ++
  i32beBytes u.unk_18 ++ i32beBytes u.unk_1c

/-- Embedding of `Unk2C`'s `WriteOptionTo`. -/
def Unk2C.write_option_to : Option Unk2C → List Nat
  | some x => x.write_to
  | none => i32beBytes (-1)

/-- Wellformedness of an `Unk2C` value: every field in `i32` range. -/
def Unk2C.WF (u : Unk2C) : Prop :=
  (-2147483648 ≤ u.unk_00 ∧ u.unk_00 < 2147483648) ∧
  (-2147483648 ≤ u.unk_04 ∧ u.unk_04 < 2147483648) ∧
  (-2147483648 ≤ u.unk_08 ∧ u.unk_08 < 2147483648) ∧
  (-2147483648 ≤ u.unk_0c ∧ u.unk_0c < 2147483648) ∧
  (-2147483648 ≤ u.unk_10 ∧ u.unk_10 < 2147483648) ∧
  (-2147483648 ≤ u.unk_14 ∧ u.unk_14 < 2147483648) ∧
  (-2147483648 ≤ u.unk_18 ∧ u.unk_18 < 2147483648) ∧
  (-2147483648 ≤ u.unk_1c ∧ u.unk_1c < 2147483648)

instance (u : Unk2C) : Decidable (Unk2C.WF u) := by
  unfold Unk2C.WF
  infer_instance

/-- Modelled from the spec: `NonNoneList` reading (`common::NonNoneList` is
not among the provided sources).  Elements are read with the record's
`read_option_from` until the sentinel yields `None`; the result is exactly
the elements preceding the sentinel.  Recursion is bounded by explicit fuel
since each element consumes at least the sentinel read. -/
def readNonNoneList (rd : List Nat → Option (Option α × List Nat)) :
    Nat → List Nat → Option (List α × List Nat)
  | 0, _ => none
  | fuel + 1, s =>
    match rd s with
    | none => none
    | some (none, s1) => some ([], s1)
    | some (some x, s1) =>
      match readNonNoneList rd fuel s1 with
      | none => none
      | some (xs, s2) => some (x :: xs, s2)

/-- Modelled from the spec: `NonNoneList` writing, the elements in order
followed by the sentinel encoding of an absent element. -/
def nonNoneListWrite (wr : α → List Nat) (sentinel : List Nat)
    (xs : List α) : List Nat :=
  (xs.map wr).flatten ++ sentinel

/-- A game object as far as the stage layer observes it: `Object`'s own
fields are outside the provided sources; only its `script: Option<BlockId>`
slot (with `BlockId` as an opaque `Nat`) is relevant here. -/
structure Object where
  script : Option Nat
  deriving DecidableEq, Repr

/-- The six stage-level hook offsets of a header that are present, in source
order (`on_prologue` through `on_time_up`). -/
def Header.hookOffsets (h : Header) : List Nat :=
  [h.on_prologue, h.on_startup, h.on_dead, h.on_pose,
   h.on_time_cycle, h.on_time_up].filterMap id

/-- The sequence of offsets `Stage::read_from` passes to
`ScriptReader::read_event`: the present hook fields in order, then each
per-object event-table entry that is nonzero (objects and entries are
walked zipped, exactly as the source loop does). -/
def stageReadEventCalls (h : Header) (objects : List Object)
    (events : List Nat) : List Nat :=
  Header.hookOffsets h ++
    (((objects.zip events).filter (fun p => p.2 != 0)).map Prod.snd)

/-- An output byte buffer overwrite: `bytes` replaces the content starting
at `pos`, zero-filling any gap and keeping any tail beyond the write. -/
def writeAt (data : List Nat) (pos : Nat) (bytes : List Nat) : List Nat :=
  data.take pos ++ List.replicate (pos - data.length) 0 ++ bytes ++
    data.drop (pos + bytes.length)

/-- A seekable output stream (`W: Write + Seek`): its accumulated bytes and
the current position. -/
structure WStream where
  data : List Nat
  pos : Nat
  deriving DecidableEq, Repr

/-- Write bytes at the current position and advance it. -/
def WStream.emit (s : WStream) (bytes : List Nat) : WStream :=
  { data := writeAt s.data s.pos bytes, pos := s.pos + bytes.length }

/-- Seek to an absolute position (`SeekFrom::Start`). -/
def WStream.seek (s : WStream) (p : Nat) : WStream :=
  { data := s.data, pos := p }

/-- Modelled from the spec: a `ScriptWriter` session over the stage's output
stream (`event::script::ScriptWriter` is not among the provided sources).
It holds the stream and the cache from already-written `BlockId`s to their
assigned offsets. -/
structure ScriptWriter where
  stream : WStream
  cache : List (Nat × Nat)
  deriving DecidableEq, Repr

/-- Modelled from the spec: `ScriptWriter::write_subroutine`.  A cached
`BlockId` returns its previously assigned offset and emits nothing; a new
one is laid out at the current stream position, which is returned and
cached.  The encoded body of a subroutine is the opaque `subBytes` of its
entry block. -/
def ScriptWriter.write_subroutine (subBytes : Nat → List Nat)
    (w : ScriptWriter) (id : Nat) : Nat × ScriptWriter :=
  match w.cache.lookup id with
  | some off => (off, w)
  | none =>
    let off := w.stream.pos
    (off, { stream := w.stream.emit (subBytes id), cache := (id, off) :: w.cache })

/-- One optional stage hook written through the script writer, as in
`Stage::write_to`: a present hook has its subroutine written and the
returned offset stored through `NonZeroU32::new`. -/
def writeHook (subBytes : Nat → List Nat) (hook : Option Nat)
    (sw : ScriptWriter) : Option Nat × ScriptWriter :=
  match hook with
  | some b =>
    let r := sw.write_subroutine subBytes b
    (nonZeroU32New r.1, r.2)
  | none => (none, sw)

/-- The per-object event-table loop of `Stage::write_to`: entry `i` becomes
the offset returned by `write_subroutine` for object `i`'s script, and keeps
its placeholder `0` when the object has none. -/
def writeObjectEvents (subBytes : Nat → List Nat) :
    List Object → ScriptWriter → List Nat × ScriptWriter
  | [], sw => ([], sw)
  | obj :: rest, sw =>
    match obj.script with
    | some ev =>
      let r := sw.write_subroutine subBytes ev
      let t := writeObjectEvents subBytes rest r.2
      (r.1 :: t.1, t.2)
    | none =>
      let t := writeObjectEvents subBytes rest sw
      (0 :: t.1, t.2)

/-- The `Stage` fields that `Stage::write_to` consumes.  The `actors` list
and the object records are serialized by code outside the provided sources;
their encodings enter the model as the opaque byte strings `objsBytes` and
`actorsBytes` of `Stage.write_to`. -/
structure Stage where
  objects : List Object
  on_prologue : Option Nat
  on_startup : Option Nat
  on_dead : Option Nat
  on_pose : Option Nat
  on_time_cycle : Option Nat
  on_time_up : Option Nat
  settings : Settings
  unk_28 : List Unk28
  unk_2c : List Unk2C
  unk_30 : List Unk28

/-- The section-writing phase of `Stage::write_to` (everything before the
`ScriptWriter` is created): the placeholder header, the settings, the
objects, the all-zero event table, the actors and the optional trailer
tables, recording each section offset as the stream position where it
begins. -/
structure SectionLayout where
  afterSections : WStream
  settings_offset : Nat
  objects_offset : Nat
  events_offset : Nat
  actors_offset : Nat
  unk_28_offset : Option Nat
  unk_2c_offset : Option Nat
  unk_30_offset : Option Nat

/-- Sections of `Stage::write_to` in source order, starting from the
placeholder `Header::default()` write. -/
def Stage.writeSections (stage : Stage) (objsBytes actorsBytes : List Nat)
    (w0 : WStream) : SectionLayout :=
  let w := w0.emit (Header.write_to Header.default)
  let settings_offset := w.pos
  let w := w.emit (Settings.write_to stage.settings)
  let objects_offset := w.pos
  let w := w.emit objsBytes
  let events_offset := w.pos
  let w := w.emit (EventTable.write_to ⟨List.replicate stage.objects.length 0⟩)
  let actors_offset := w.pos
  let w := w.emit actorsBytes
  let a :=
    if stage.unk_28.isEmpty then (none, w)
    else (nonZeroU32New w.pos,
      w.emit (nonNoneListWrite Unk28.write_to (i32beBytes (-1)) stage.unk_28))
  let b :=
    if stage.unk_2c.isEmpty then (none, a.2)
    else (nonZeroU32New a.2.pos,
      a.2.emit (nonNoneListWrite Unk2C.write_to (i32beBytes (-1)) stage.unk_2c))
  let c :=
    if stage.unk_30.isEmpty then (none, b.2)
    else (nonZeroU32New b.2.pos,
      b.2.emit (nonNoneListWrite Unk28.write_to (i32beBytes (-1)) stage.unk_30))
  { afterSections := c.2, settings_offset, objects_offset, events_offset,
    actors_offset, unk_28_offset := a.1, unk_2c_offset := b.1,
    unk_30_offset := c.1 }

/-- Embedding of `Stage::write_to`: the sections, then the six hooks and the
per-object scripts through one `ScriptWriter` session, then the seek back to
rewrite the header and the event table with the recorded offsets.  The
result carries the final stream, the final header and the final event-table
entries. -/
def Stage.write_to (stage : Stage) (objsBytes actorsBytes : List Nat)
    (subBytes : Nat → List Nat) (w0 : WStream) :
    WStream × Header × List Nat :=
  let L := stage.writeSections objsBytes actorsBytes w0
  let sw0 : ScriptWriter := ⟨L.afterSections, []⟩
  let h1 := writeHook subBytes stage.on_prologue sw0
  let h2 := writeHook subBytes stage.on_startup h1.2
  let h3 := writeHook subBytes stage.on_dead h2.2
  let h4 := writeHook subBytes stage.on_pose h3.2
  let h5 := writeHook subBytes stage.on_time_cycle h4.2
  let h6 := writeHook subBytes stage.on_time_up h5.2
  let ev := writeObjectEvents subBytes stage.objects h6.2
  let header : Header :=
    { settings_offset := L.settings_offset,
      objects_offset := L.objects_offset,
      events_offset := L.events_offset,
      on_prologue := h1.1, on_startup := h2.1, on_dead := h3.1,
      on_pose := h4.1, on_time_cycle := h5.1, on_time_up := h6.1,
      actors_offset := L.actors_offset,
      unk_28_offset := L.unk_28_offset,
      unk_2c_offset := L.unk_2c_offset,
      unk_30_offset := L.unk_30_offset }
  let w := ev.2.stream
  let w := (w.seek 0).emit (Header.write_to header)
  let w := (w.seek L.events_offset).emit (EventTable.write_to ⟨ev.1⟩)
  (w, header, ev.1)

end Unplug

namespace Unplug

/- Helper lemmas shared by the claim theorems. -/

theorem exceptBindOk (a : α) (f : α → Except Error β) :
    (Bind.bind (Except.ok a) f) = f a := rfl

theorem exceptBindErr (e : Error) (f : α → Except Error β) :
    (Bind.bind (Except.error e) f : Except Error β) = Except.error e := rfl

theorem nonZeroU32New_ne_zero (n v : Nat) (h : nonZeroU32New n = some v) :
    v ≠ 0 := by
  unfold nonZeroU32New at h
  split at h
  · exact absurd h (by simp)
  · cases h
    assumption

theorem u32FromLE_bytes (n : Nat) (hn : n < 4294967296) :
    u32FromLE (n % 256) (n / 256 % 256) (n / 65536 % 256) (n / 16777216 % 256) = n := by
  unfold u32FromLE
  omega

theorem nonZeroU32New_optU32 (o : Option Nat) (hw : optWF o) :
    nonZeroU32New (optU32 o) = o := by
  cases o with
  | none => rfl
  | some v =>
    obtain ⟨hv, _⟩ := hw
    simp only [optU32, Option.getD_some, nonZeroU32New]
    rw [if_neg (by omega)]

theorem optU32_lt (o : Option Nat) (hw : optWF o) : optU32 o < 4294967296 := by
  cases o with
  | none => simp [optU32]
  | some v => exact hw.2

theorem header_read_inv_iff (s s1 s2 : List Nat) (v1 v2 : Nat)
    (h1 : readU32LE s = some (v1, s1)) (h2 : readU32LE s1 = some (v2, s2)) :
    (Header.read_from s = Except.error Error.invalidHeader ↔
      (v1 ≠ EXPECTED_SETTINGS_OFFSET ∨ v2 ≠ EXPECTED_OBJECTS_OFFSET)) := by
  simp only [Header.read_from, rdU32, h1, h2, exceptBindOk]
  by_cases hc : v1 ≠ EXPECTED_SETTINGS_OFFSET ∨ v2 ≠ EXPECTED_OBJECTS_OFFSET
  · simp [hc]
  · simp only [hc, if_neg, if_false]
    simp only [iff_false, hc]
    push_neg at hc
    simp [hc]
    repeat' (first | split | simp_all [exceptBindOk, exceptBindErr])

theorem header_read_ok_of (x0 x1 x2 x3 x4 x5 x6 x7 x8 x9 x10 x11 x12 x13 x14 x15 x16 x17 x18 x19 x20 x21 x22 x23 x24 x25 x26 x27 x28 x29 x30 x31 x32 x33 x34 x35 x36 x37 x38 x39 x40 x41 x42 x43 x44 x45 x46 x47 x48 x49 x50 x51 : Nat) (rest : List Nat)
    (h1 : u32FromLE x0 x1 x2 x3 = EXPECTED_SETTINGS_OFFSET)
    (h2 : u32FromLE x4 x5 x6 x7 = EXPECTED_OBJECTS_OFFSET) :
    Header.read_from (x0::x1::x2::x3::x4::x5::x6::x7::x8::x9::x10::x11::x12::x13::x14::x15::x16::x17::x18::x19::x20::x21::x22::x23::x24::x25::x26::x27::x28::x29::x30::x31::x32::x33::x34::x35::x36::x37::x38::x39::x40::x41::x42::x43::x44::x45::x46::x47::x48::x49::x50::x51::rest) = Except.ok
      ({ settings_offset := EXPECTED_SETTINGS_OFFSET,
         objects_offset := EXPECTED_OBJECTS_OFFSET,
         events_offset := u32FromLE x8 x9 x10 x11,
         on_prologue := nonZeroU32New (u32FromLE x12 x13 x14 x15),
         on_startup := nonZeroU32New (u32FromLE x16 x17 x18 x19),
         on_dead := nonZeroU32New (u32FromLE x20 x21 x22 x23),
         on_pose := nonZeroU32New (u32FromLE x24 x25 x26 x27),
         on_time_cycle := nonZeroU32New (u32FromLE x28 x29 x30 x31),
         on_time_up := nonZeroU32New (u32FromLE x32 x33 x34 x35),
         actors_offset := u32FromLE x36 x37 x38 x39,
         unk_28_offset := nonZeroU32New (u32FromLE x40 x41 x42 x43),
         unk_2c_offset := nonZeroU32New (u32FromLE x44 x45 x46 x47),
         unk_30_offset := nonZeroU32New (u32FromLE x48 x49 x50 x51) }, rest) := by
  simp only [Header.read_from, rdU32, readU32LE, exceptBindOk, h1, h2]
  rw [if_neg (by simp)]

theorem header_read_ok_hooks (s r : List Nat) (h : Header)
    (hok : Header.read_from s = Except.ok (h, r)) :
    ∀ v : Nat,
      h.on_prologue = some v ∨ h.on_startup = some v ∨ h.on_dead = some v ∨
      h.on_pose = some v ∨ h.on_time_cycle = some v ∨ h.on_time_up = some v →
      v ≠ 0 := by
  simp only [Header.read_from, rdU32] at hok
  repeat' first
  | (split at hok)
  | (simp only [exceptBindOk, exceptBindErr] at hok)
  all_goals first
  | (exact Except.noConfusion hok)
  | (simp only [Except.ok.injEq, Prod.mk.injEq] at hok
     obtain ⟨hh, hr⟩ := hok
     subst hh
     intro v hv
     rcases hv with hv | hv | hv | hv | hv | hv <;>
       exact nonZeroU32New_ne_zero _ _ hv)

/-- C2: `Header::read_from` fails with `InvalidHeader` exactly when the first
decoded `u32` differs from `52` or the second from `72`; on a stream of at
least 52 bytes whose first two `u32` values are `52` and `72` it succeeds
with the ten following fields decoded from the subsequent `u32` values. -/
theorem header_read_from_offset_check :
    (∀ (s s1 s2 : List Nat) (v1 v2 : Nat),
      readU32LE s = some (v1, s1) → readU32LE s1 = some (v2, s2) →
      (Header.read_from s = Except.error Error.invalidHeader ↔
        (v1 ≠ EXPECTED_SETTINGS_OFFSET ∨ v2 ≠ EXPECTED_OBJECTS_OFFSET))) ∧
    (∀ (x0 x1 x2 x3 x4 x5 x6 x7 x8 x9 x10 x11 x12 x13 x14 x15 x16 x17 x18 x19 x20 x21 x22 x23 x24 x25 x26 x27 x28 x29 x30 x31 x32 x33 x34 x35 x36 x37 x38 x39 x40 x41 x42 x43 x44 x45 x46 x47 x48 x49 x50 x51 : Nat) (rest : List Nat),
      u32FromLE x0 x1 x2 x3 = EXPECTED_SETTINGS_OFFSET →
      u32FromLE x4 x5 x6 x7 = EXPECTED_OBJECTS_OFFSET →
      Header.read_from (x0::x1::x2::x3::x4::x5::x6::x7::x8::x9::x10::x11::x12::x13::x14::x15::x16::x17::x18::x19::x20::x21::x22::x23::x24::x25::x26::x27::x28::x29::x30::x31::x32::x33::x34::x35::x36::x37::x38::x39::x40::x41::x42::x43::x44::x45::x46::x47::x48::x49::x50::x51::rest) = Except.ok
        ({ settings_offset := EXPECTED_SETTINGS_OFFSET,
             objects_offset := EXPECTED_OBJECTS_OFFSET,
             events_offset := u32FromLE x8 x9 x10 x11,
             on_prologue := nonZeroU32New (u32FromLE x12 x13 x14 x15),
             on_startup := nonZeroU32New (u32FromLE x16 x17 x18 x19),
             on_dead := nonZeroU32New (u32FromLE x20 x21 x22 x23),
             on_pose := nonZeroU32New (u32FromLE x24 x25 x26 x27),
             on_time_cycle := nonZeroU32New (u32FromLE x28 x29 x30 x31),
             on_time_up := nonZeroU32New (u32FromLE x32 x33 x34 x35),
             actors_offset := u32FromLE x36 x37 x38 x39,
             unk_28_offset := nonZeroU32New (u32FromLE x40 x41 x42 x43),
             unk_2c_offset := nonZeroU32New (u32FromLE x44 x45 x46 x47),
             unk_30_offset := nonZeroU32New (u32FromLE x48 x49 x50 x51) }, rest)) :=
  ⟨header_read_inv_iff, header_read_ok_of⟩

/-- Witness for C2 at concrete inputs: a mismatched first offset is rejected
and a 52-byte header with offsets `52`/`72` and prologue hook `0` parses. -/
theorem header_read_from_offset_check_witness :
    (Header.read_from [1, 0, 0, 0, 0, 0, 0, 0] = Except.error Error.invalidHeader ↔
      ((1 : Nat) ≠ EXPECTED_SETTINGS_OFFSET ∨ (0 : Nat) ≠ EXPECTED_OBJECTS_OFFSET)) ∧
    Header.read_from (52 :: 0 :: 0 :: 0 :: 72 :: 0 :: 0 :: 0 :: 1 :: 0 :: 0 :: 0 :: 2 :: 0 :: 0 :: 0 :: 3 :: 0 :: 0 :: 0 :: 4 :: 0 :: 0 :: 0 :: 5 :: 0 :: 0 :: 0 :: 6 :: 0 :: 0 :: 0 :: 7 :: 0 :: 0 :: 0 :: 8 :: 0 :: 0 :: 0 :: 9 :: 0 :: 0 :: 0 :: 10 :: 0 :: 0 :: 0 :: 11 :: 0 :: 0 :: 0 :: ([] : List Nat)) =
      Except.ok (⟨52, 72, 1, some 2, some 3, some 4, some 5, some 6, some 7, 8, some 9,
        some 10, some 11⟩, []) := by
  refine ⟨header_read_from_offset_check.1 [1, 0, 0, 0, 0, 0, 0, 0] [0, 0, 0, 0] [] 1 0 (by decide) (by decide), ?_⟩
  have h := header_read_from_offset_check.2 52 0 0 0 72 0 0 0 1 0 0 0 2 0 0 0 3 0 0 0 4 0 0 0 5 0 0 0 6 0 0 0 7 0 0 0 8 0 0 0 9 0 0 0 10 0 0 0 11 0 0 0 [] (by decide) (by decide)
  exact h.trans (by decide)

/-- C1: every offset that `Stage::read_from` hands to
`ScriptReader::read_event` is nonzero: the hook fields of a successfully
parsed header come through `NonZeroU32::new`, and a per-object event entry
is only used when it is nonzero. -/
theorem stage_read_event_offsets_nonzero (s r : List Nat) (h : Header)
    (objects : List Object) (events : List Nat)
    (hok : Header.read_from s = Except.ok (h, r)) :
    ∀ off ∈ stageReadEventCalls h objects events, off ≠ 0 := by
  intro off hmem
  have hooks := header_read_ok_hooks s r h hok
  unfold stageReadEventCalls at hmem
  rcases List.mem_append.mp hmem with hm | hm
  · unfold Header.hookOffsets at hm
    rw [List.mem_filterMap] at hm
    obtain ⟨a, ha, hid⟩ := hm
    simp only [id] at hid
    subst hid
    simp only [List.mem_cons, List.not_mem_nil, or_false] at ha
    exact hooks off (by tauto)
  · rw [List.mem_map] at hm
    obtain ⟨p, hp, hoff⟩ := hm
    rw [List.mem_filter] at hp
    subst hoff
    simpa using hp.2

/-- Witness for C1: with a parsed header whose prologue hook is `3`, one
object and event entry `7`, the collected offset `7` is nonzero. -/
theorem stage_read_event_offsets_nonzero_witness : (7 : Nat) ≠ 0 :=
  stage_read_event_offsets_nonzero
    (52 :: 0 :: 0 :: 0 :: 72 :: 0 :: 0 :: 0 :: 0 :: 0 :: 0 :: 0 :: 3 :: 0 :: 0 :: 0 :: 0 :: 0 :: 0 :: 0 :: 0 :: 0 :: 0 :: 0 :: 0 :: 0 :: 0 :: 0 :: 0 :: 0 :: 0 :: 0 :: 0 :: 0 :: 0 :: 0 :: 0 :: 0 :: 0 :: 0 :: 0 :: 0 :: 0 :: 0 :: 0 :: 0 :: 0 :: 0 :: 0 :: 0 :: 0 :: 0 :: ([] : List Nat))
    [] ⟨52, 72, 0, some 3, none, none, none, none, none, 0, none, none, none⟩
    [⟨some 9⟩] [7] (by decide) 7 (by decide)

/-- C8: a wellformed header whose settings/objects offsets are `52`/`72`
round-trips through `Header::write_to` then `Header::read_from`, with `None`
hook fields written as `0` and recovered as `None`. -/
theorem header_write_read_roundtrip (h : Header) (rest : List Nat)
    (hwf : Header.WF h)
    (hs : h.settings_offset = EXPECTED_SETTINGS_OFFSET)
    (ho : h.objects_offset = EXPECTED_OBJECTS_OFFSET) :
    Header.read_from (Header.write_to h ++ rest) = Except.ok (h, rest) := by
  obtain ⟨so, oo, eo, p1, p2, p3, p4, p5, p6, ao, q1, q2, q3⟩ := h
  obtain ⟨w1, w2, w3, w4, w5, w6, w7, w8, w9, w10, w11, w12, w13⟩ := hwf
  simp only at hs ho
  subst hs ho
  simp only [Header.write_to, u32leBytes, List.cons_append, List.append_assoc,
    List.nil_append]
  rw [header_read_ok_of _ _ _ _ _ _ _ _ _ _ _ _ _ _ _ _ _ _ _ _ _ _ _ _ _ _ _ _ _ _ _ _ _ _ _ _ _ _ _ _ _ _ _ _ _ _ _ _ _ _ _ _ rest
      (by decide) (by decide)]
  rw [u32FromLE_bytes eo w3, u32FromLE_bytes ao w4,
    u32FromLE_bytes _ (optU32_lt p1 w5), nonZeroU32New_optU32 p1 w5,
    u32FromLE_bytes _ (optU32_lt p2 w6), nonZeroU32New_optU32 p2 w6,
    u32FromLE_bytes _ (optU32_lt p3 w7), nonZeroU32New_optU32 p3 w7,
    u32FromLE_bytes _ (optU32_lt p4 w8), nonZeroU32New_optU32 p4 w8,
    u32FromLE_bytes _ (optU32_lt p5 w9), nonZeroU32New_optU32 p5 w9,
    u32FromLE_bytes _ (optU32_lt p6 w10), nonZeroU32New_optU32 p6 w10,
    u32FromLE_bytes _ (optU32_lt q1 w11), nonZeroU32New_optU32 q1 w11,
    u32FromLE_bytes _ (optU32_lt q2 w12), nonZeroU32New_optU32 q2 w12,
    u32FromLE_bytes _ (optU32_lt q3 w13), nonZeroU32New_optU32 q3 w13]

/-- Witness for C8: a concrete header with a present prologue hook and a
`None` startup hook round-trips. -/
theorem header_write_read_roundtrip_witness :
    Header.read_from (Header.write_to
      ⟨52, 72, 300, some 99, none, none, none, none, none, 400, none, some 5, none⟩ ++ [7]) =
    Except.ok (⟨52, 72, 300, some 99, none, none, none, none, none, 400, none, some 5, none⟩, [7]) :=
  header_write_read_roundtrip
    ⟨52, 72, 300, some 99, none, none, none, none, none, 400, none, some 5, none⟩
    [7] (by decide) (by decide) (by decide)

end Unplug

namespace Unplug

theorem optionBindSome (a : α) (f : α → Option β) :
    (Bind.bind (some a) f) = f a := rfl

theorem i32FromBE_repr (x : Int) (h1 : -2147483648 ≤ x) (h2 : x < 2147483648) :
    i32FromBE (i32Repr x / 16777216 % 256) (i32Repr x / 65536 % 256)
      (i32Repr x / 256 % 256) (i32Repr x % 256) = x := by
  unfold i32FromBE i32Repr
  dsimp only
  split <;> omega

theorem i16FromBE_repr (x : Int) (h1 : -32768 ≤ x) (h2 : x < 32768) :
    i16FromBE ((x % 65536).toNat / 256 % 256) ((x % 65536).toNat % 256) = x := by
  unfold i16FromBE
  dsimp only
  split <;> omega

theorem unk28_read_sentinel (b0 b1 b2 b3 : Nat) (rest : List Nat)
    (h : i32FromBE b0 b1 b2 b3 = -1) :
    Unk28.read_option_from (b0 :: b1 :: b2 :: b3 :: rest) = some (none, rest) := by
  simp only [Unk28.read_option_from, readI32BE, optionBindSome]
  rw [if_pos h]

theorem unk2c_read_sentinel (b0 b1 b2 b3 : Nat) (rest : List Nat)
    (h : i32FromBE b0 b1 b2 b3 = -1) :
    Unk2C.read_option_from (b0 :: b1 :: b2 :: b3 :: rest) = some (none, rest) := by
  simp only [Unk2C.read_option_from, readI32BE, optionBindSome]
  rw [if_pos h]

theorem unk28_read_fields (y0 y1 y2 y3 y4 y5 y6 y7 y8 y9 y10 y11 y12 y13 y14 y15 y16 y17 y18 y19 y20 y21 y22 y23 y24 y25 y26 y27 y28 y29 y30 y31 y32 y33 y34 y35 y36 y37 y38 y39 y40 y41 y42 y43 y44 y45 y46 y47 y48 y49 y50 y51 : Nat) (rest : List Nat)
    (h : i32FromBE y0 y1 y2 y3 ≠ -1) :
    Unk28.read_option_from (y0::y1::y2::y3::y4::y5::y6::y7::y8::y9::y10::y11::y12::y13::y14::y15::y16::y17::y18::y19::y20::y21::y22::y23::y24::y25::y26::y27::y28::y29::y30::y31::y32::y33::y34::y35::y36::y37::y38::y39::y40::y41::y42::y43::y44::y45::y46::y47::y48::y49::y50::y51::rest) = some (some
      ⟨i32FromBE y0 y1 y2 y3, i32FromBE y4 y5 y6 y7, i32FromBE y8 y9 y10 y11, i32FromBE y12 y13 y14 y15,
        i32FromBE y16 y17 y18 y19, i32FromBE y20 y21 y22 y23, i32FromBE y24 y25 y26 y27, i32FromBE y28 y29 y30 y31,
        i32FromBE y32 y33 y34 y35, i32FromBE y36 y37 y38 y39, i32FromBE y40 y41 y42 y43,
        i16FromBE y44 y45, i16FromBE y46 y47, i32FromBE y48 y49 y50 y51⟩, rest) := by
  simp only [Unk28.read_option_from, readI32BE, readI16BE, optionBindSome]
  rw [if_neg h]

theorem unk2c_read_fields (z0 z1 z2 z3 z4 z5 z6 z7 z8 z9 z10 z11 z12 z13 z14 z15 z16 z17 z18 z19 z20 z21 z22 z23 z24 z25 z26 z27 z28 z29 z30 z31 : Nat) (rest : List Nat)
    (h : i32FromBE z0 z1 z2 z3 ≠ -1) :
    Unk2C.read_option_from (z0::z1::z2::z3::z4::z5::z6::z7::z8::z9::z10::z11::z12::z13::z14::z15::z16::z17::z18::z19::z20::z21::z22::z23::z24::z25::z26::z27::z28::z29::z30::z31::rest) = some (some
      ⟨i32FromBE z0 z1 z2 z3, i32FromBE z4 z5 z6 z7, i32FromBE z8 z9 z10 z11, i32FromBE z12 z13 z14 z15,
        i32FromBE z16 z17 z18 z19, i32FromBE z20 z21 z22 z23, i32FromBE z24 z25 z26 z27, i32FromBE z28 z29 z30 z31⟩, rest) := by
  simp only [Unk2C.read_option_from, readI32BE, optionBindSome]
  rw [if_neg h]

theorem unk28_write_read (u : Unk28) (r : List Nat) (hwf : Unk28.WF u)
    (hne : u.unk_00 ≠ -1) :
    Unk28.read_option_from (Unk28.write_to u ++ r) = some (some u, r) := by
  obtain ⟨a0, a1, a2, a3, a4, a5, a6, a7, a8, a9, a10, a11, a12, a13⟩ := u
  obtain ⟨w0, w1, w2, w3, w4, w5, w6, w7, w8, w9, w10, w11, w12, w13⟩ := hwf
  simp only at hne
  simp only [Unk28.write_to, i32beBytes, i16beBytes, u32beBytes,
    List.cons_append, List.append_assoc, List.nil_append]
  rw [unk28_read_fields _ _ _ _ _ _ _ _ _ _ _ _ _ _ _ _ _ _ _ _ _ _ _ _ _ _ _ _ _ _ _ _ _ _ _ _ _ _ _ _ _ _ _ _ _ _ _ _ _ _ _ _ _
      (by rw [i32FromBE_repr a0 w0.1 w0.2]; exact hne)]
  rw [i32FromBE_repr a0 w0.1 w0.2, i32FromBE_repr a1 w1.1 w1.2, i32FromBE_repr a2 w2.1 w2.2, i32FromBE_repr a3 w3.1 w3.2, i32FromBE_repr a4 w4.1 w4.2, i32FromBE_repr a5 w5.1 w5.2, i32FromBE_repr a6 w6.1 w6.2, i32FromBE_repr a7 w7.1 w7.2, i32FromBE_repr a8 w8.1 w8.2, i32FromBE_repr a9 w9.1 w9.2, i32FromBE_repr a10 w10.1 w10.2, i16FromBE_repr a11 w11.1 w11.2, i16FromBE_repr a12 w12.1 w12.2, i32FromBE_repr a13 w13.1 w13.2]

theorem unk2c_write_read (u : Unk2C) (r : List Nat) (hwf : Unk2C.WF u)
    (hne : u.unk_00 ≠ -1) :
    Unk2C.read_option_from (Unk2C.write_to u ++ r) = some (some u, r) := by
  obtain ⟨a0, a1, a2, a3, a4, a5, a6, a7⟩ := u
  obtain ⟨w0, w1, w2, w3, w4, w5, w6, w7⟩ := hwf
  simp only at hne
  simp only [Unk2C.write_to, i32beBytes, u32beBytes,
    List.cons_append, List.append_assoc, List.nil_append]
  rw [unk2c_read_fields _ _ _ _ _ _ _ _ _ _ _ _ _ _ _ _ _ _ _ _ _ _ _ _ _ _ _ _ _ _ _ _ _
      (by rw [i32FromBE_repr a0 w0.1 w0.2]; exact hne)]
  rw [i32FromBE_repr a0 w0.1 w0.2, i32FromBE_repr a1 w1.1 w1.2, i32FromBE_repr a2 w2.1 w2.2, i32FromBE_repr a3 w3.1 w3.2, i32FromBE_repr a4 w4.1 w4.2, i32FromBE_repr a5 w5.1 w5.2, i32FromBE_repr a6 w6.1 w6.2, i32FromBE_repr a7 w7.1 w7.2]

theorem i32beBytes_neg_one : i32beBytes (-1) = [255, 255, 255, 255] := by decide

theorem unk28_sentinel_reads_none (r : List Nat) :
    Unk28.read_option_from (i32beBytes (-1) ++ r) = some (none, r) := by
  rw [i32beBytes_neg_one]
  exact unk28_read_sentinel 255 255 255 255 r (by decide)

theorem unk2c_sentinel_reads_none (r : List Nat) :
    Unk2C.read_option_from (i32beBytes (-1) ++ r) = some (none, r) := by
  rw [i32beBytes_neg_one]
  exact unk2c_read_sentinel 255 255 255 255 r (by decide)

theorem readNonNoneList_succ {α : Type} (rd : List Nat → Option (Option α × List Nat))
    (fuel : Nat) (s : List Nat) :
    readNonNoneList rd (fuel + 1) s =
      match rd s with
      | none => none
      | some (none, s1) => some ([], s1)
      | some (some x, s1) =>
        match readNonNoneList rd fuel s1 with
        | none => none
        | some (xs, s2) => some (x :: xs, s2) := rfl

theorem readNonNoneList_encodes {α : Type} (rd : List Nat → Option (Option α × List Nat))
    (wr : α → List Nat) (sentinel : List Nat) (xs : List α) (junk : List Nat)
    (hElem : ∀ x ∈ xs, ∀ r, rd (wr x ++ r) = some (some x, r))
    (hSent : ∀ r, rd (sentinel ++ r) = some (none, r)) :
    readNonNoneList rd (xs.length + 1) ((xs.map wr).flatten ++ (sentinel ++ junk)) =
      some (xs, junk) := by
  induction xs with
  | nil =>
    simp only [List.map_nil, List.flatten_nil, List.nil_append, List.length_nil]
    rw [readNonNoneList_succ, hSent]
  | cons x t ih =>
    simp only [List.map_cons, List.flatten_cons, List.length_cons, List.append_assoc]
    rw [readNonNoneList_succ, hElem x (List.mem_cons_self x t)]
    dsimp only
    rw [ih (fun y hy r => hElem y (List.mem_cons_of_mem x hy) r)]

end Unplug

namespace Unplug

theorem unk28_write_collision (u : Unk28) (r : List Nat) (h : u.unk_00 = -1) :
    Unk28.read_option_from (Unk28.write_to u ++ r) =
      some (none, i32beBytes u.unk_04 ++ i32beBytes u.unk_08 ++
        i32beBytes u.unk_0c ++ i32beBytes u.unk_10 ++ i32beBytes u.unk_14 ++
        i32beBytes u.unk_18 ++ i32beBytes u.unk_1c ++ i32beBytes u.unk_20 ++
        i32beBytes u.unk_24 ++ i32beBytes u.unk_28 ++ i16beBytes u.unk_2c ++
        i16beBytes u.unk_2e ++ i32beBytes u.unk_30 ++ r) := by
  rw [Unk28.write_to, h, i32beBytes_neg_one]
  simp only [List.cons_append, List.append_assoc, List.nil_append]
  exact unk28_read_sentinel 255 255 255 255 _ (by decide)

theorem unk2c_write_collision (u : Unk2C) (r : List Nat) (h : u.unk_00 = -1) :
    Unk2C.read_option_from (Unk2C.write_to u ++ r) =
      some (none, i32beBytes u.unk_04 ++ i32beBytes u.unk_08 ++
        i32beBytes u.unk_0c ++ i32beBytes u.unk_10 ++ i32beBytes u.unk_14 ++
        i32beBytes u.unk_18 ++ i32beBytes u.unk_1c ++ r) := by
  rw [Unk2C.write_to, h, i32beBytes_neg_one]
  simp only [List.cons_append, List.append_assoc, List.nil_append]
  exact unk2c_read_sentinel 255 255 255 255 _ (by decide)

/-- C3: `read_option_from` for `Unk28` and `Unk2C` returns `None` exactly on
a leading `-1`, consuming only those 4 bytes; on any other leading value it
reads exactly the record's remaining fields; consequently a
sentinel-terminated list decodes to exactly the elements preceding the `-1`
terminator, reading nothing past it. -/
theorem unk_read_option_from_spec :
    (∀ (b0 b1 b2 b3 : Nat) (rest : List Nat), i32FromBE b0 b1 b2 b3 = -1 →
      Unk28.read_option_from (b0 :: b1 :: b2 :: b3 :: rest) = some (none, rest)) ∧
    (∀ (y0 y1 y2 y3 y4 y5 y6 y7 y8 y9 y10 y11 y12 y13 y14 y15 y16 y17 y18 y19 y20 y21 y22 y23 y24 y25 y26 y27 y28 y29 y30 y31 y32 y33 y34 y35 y36 y37 y38 y39 y40 y41 y42 y43 y44 y45 y46 y47 y48 y49 y50 y51 : Nat) (rest : List Nat),
      i32FromBE y0 y1 y2 y3 ≠ -1 →
      Unk28.read_option_from (y0::y1::y2::y3::y4::y5::y6::y7::y8::y9::y10::y11::y12::y13::y14::y15::y16::y17::y18::y19::y20::y21::y22::y23::y24::y25::y26::y27::y28::y29::y30::y31::y32::y33::y34::y35::y36::y37::y38::y39::y40::y41::y42::y43::y44::y45::y46::y47::y48::y49::y50::y51::rest) = some (some
        ⟨i32FromBE y0 y1 y2 y3, i32FromBE y4 y5 y6 y7, i32FromBE y8 y9 y10 y11, i32FromBE y12 y13 y14 y15,
          i32FromBE y16 y17 y18 y19, i32FromBE y20 y21 y22 y23, i32FromBE y24 y25 y26 y27, i32FromBE y28 y29 y30 y31,
          i32FromBE y32 y33 y34 y35, i32FromBE y36 y37 y38 y39, i32FromBE y40 y41 y42 y43,
          i16FromBE y44 y45, i16FromBE y46 y47, i32FromBE y48 y49 y50 y51⟩, rest)) ∧
    (∀ (b0 b1 b2 b3 : Nat) (rest : List Nat), i32FromBE b0 b1 b2 b3 = -1 →
      Unk2C.read_option_from (b0 :: b1 :: b2 :: b3 :: rest) = some (none, rest)) ∧
    (∀ (z0 z1 z2 z3 z4 z5 z6 z7 z8 z9 z10 z11 z12 z13 z14 z15 z16 z17 z18 z19 z20 z21 z22 z23 z24 z25 z26 z27 z28 z29 z30 z31 : Nat) (rest : List Nat),
      i32FromBE z0 z1 z2 z3 ≠ -1 →
      Unk2C.read_option_from (z0::z1::z2::z3::z4::z5::z6::z7::z8::z9::z10::z11::z12::z13::z14::z15::z16::z17::z18::z19::z20::z21::z22::z23::z24::z25::z26::z27::z28::z29::z30::z31::rest) = some (some
        ⟨i32FromBE z0 z1 z2 z3, i32FromBE z4 z5 z6 z7, i32FromBE z8 z9 z10 z11, i32FromBE z12 z13 z14 z15,
          i32FromBE z16 z17 z18 z19, i32FromBE z20 z21 z22 z23, i32FromBE z24 z25 z26 z27, i32FromBE z28 z29 z30 z31⟩, rest)) ∧
    (∀ (xs : List Unk28) (junk : List Nat),
      (∀ x ∈ xs, Unk28.WF x ∧ x.unk_00 ≠ -1) →
      readNonNoneList Unk28.read_option_from (xs.length + 1)
        (nonNoneListWrite Unk28.write_to (i32beBytes (-1)) xs ++ junk) =
        some (xs, junk)) ∧
    (∀ (xs : List Unk2C) (junk : List Nat),
      (∀ x ∈ xs, Unk2C.WF x ∧ x.unk_00 ≠ -1) →
      readNonNoneList Unk2C.read_option_from (xs.length + 1)
        (nonNoneListWrite Unk2C.write_to (i32beBytes (-1)) xs ++ junk) =
        some (xs, junk)) := by
  refine ⟨unk28_read_sentinel, unk28_read_fields, unk2c_read_sentinel,
    unk2c_read_fields, ?_, ?_⟩
  · intro xs junk hx
    rw [nonNoneListWrite, List.append_assoc]
    exact readNonNoneList_encodes _ _ _ xs junk
      (fun x hxm r => unk28_write_read x r (hx x hxm).1 (hx x hxm).2)
      unk28_sentinel_reads_none
  · intro xs junk hx
    rw [nonNoneListWrite, List.append_assoc]
    exact readNonNoneList_encodes _ _ _ xs junk
      (fun x hxm r => unk2c_write_read x r (hx x hxm).1 (hx x hxm).2)
      unk2c_sentinel_reads_none

/-- Witness for C3: concrete sentinel reads, concrete 52- and 32-byte record
reads, and concrete one-element sentinel-terminated lists. -/
theorem unk_read_option_from_spec_witness :
    Unk28.read_option_from [255, 255, 255, 255, 1] = some (none, [1]) ∧
    Unk28.read_option_from [0, 0, 0, 1, 0, 0, 0, 2, 0, 0, 0, 3, 0, 0, 0, 4, 0, 0, 0, 5, 0, 0, 0, 6, 0, 0, 0, 7, 0, 0, 0, 8, 0, 0, 0, 9, 0, 0, 0, 10, 0, 0, 0, 11, 0, 12, 0, 13, 0, 0, 0, 14] = some (some ⟨1, 2, 3, 4, 5, 6, 7, 8, 9, 10, 11, 12, 13, 14⟩, []) ∧
    Unk2C.read_option_from [255, 255, 255, 255, 2] = some (none, [2]) ∧
    Unk2C.read_option_from [0, 0, 0, 1, 0, 0, 0, 2, 0, 0, 0, 3, 0, 0, 0, 4, 0, 0, 0, 5, 0, 0, 0, 6, 0, 0, 0, 7, 0, 0, 0, 8] = some (some ⟨1, 2, 3, 4, 5, 6, 7, 8⟩, []) ∧
    readNonNoneList Unk28.read_option_from 2
      (nonNoneListWrite Unk28.write_to (i32beBytes (-1)) [⟨0, 0, 0, 0, 0, 0, 0, 0, 0, 0, 0, 0, 0, 0⟩] ++ [9]) =
      some ([⟨0, 0, 0, 0, 0, 0, 0, 0, 0, 0, 0, 0, 0, 0⟩], [9]) ∧
    readNonNoneList Unk2C.read_option_from 2
      (nonNoneListWrite Unk2C.write_to (i32beBytes (-1)) [⟨0, 0, 0, 0, 0, 0, 0, 0⟩] ++ [9]) =
      some ([⟨0, 0, 0, 0, 0, 0, 0, 0⟩], [9]) := by
  refine ⟨unk_read_option_from_spec.1 255 255 255 255 [1] (by decide),
    (unk_read_option_from_spec.2.1 0 0 0 1 0 0 0 2 0 0 0 3 0 0 0 4 0 0 0 5 0 0 0 6 0 0 0 7 0 0 0 8 0 0 0 9 0 0 0 10 0 0 0 11 0 12 0 13 0 0 0 14 [] (by decide)).trans (by decide),
    unk_read_option_from_spec.2.2.1 255 255 255 255 [2] (by decide),
    (unk_read_option_from_spec.2.2.2.1 0 0 0 1 0 0 0 2 0 0 0 3 0 0 0 4 0 0 0 5 0 0 0 6 0 0 0 7 0 0 0 8 [] (by decide)).trans (by decide),
    unk_read_option_from_spec.2.2.2.2.1 [⟨0, 0, 0, 0, 0, 0, 0, 0, 0, 0, 0, 0, 0, 0⟩] [9] (by decide),
    unk_read_option_from_spec.2.2.2.2.2 [⟨0, 0, 0, 0, 0, 0, 0, 0⟩] [9] (by decide)⟩

/-- C9: the optional-record encoding round-trips away from the sentinel:
`None` round-trips always, `Some x` round-trips exactly when `x.unk_00` is
not `-1`, and a record whose first field is `-1` is written whole but reads
back as `None`. -/
theorem unk_write_option_roundtrip :
    (∀ r : List Nat,
      Unk28.read_option_from (Unk28.write_option_to none ++ r) = some (none, r)) ∧
    (∀ (u : Unk28) (r : List Nat), Unk28.WF u → u.unk_00 ≠ -1 →
      Unk28.read_option_from (Unk28.write_option_to (some u) ++ r) = some (some u, r)) ∧
    (∀ (u : Unk28) (r : List Nat), u.unk_00 = -1 →
      (Unk28.read_option_from (Unk28.write_option_to (some u) ++ r)).map Prod.fst =
        some none) ∧
    (∀ r : List Nat,
      Unk2C.read_option_from (Unk2C.write_option_to none ++ r) = some (none, r)) ∧
    (∀ (u : Unk2C) (r : List Nat), Unk2C.WF u → u.unk_00 ≠ -1 →
      Unk2C.read_option_from (Unk2C.write_option_to (some u) ++ r) = some (some u, r)) ∧
    (∀ (u : Unk2C) (r : List Nat), u.unk_00 = -1 →
      (Unk2C.read_option_from (Unk2C.write_option_to (some u) ++ r)).map Prod.fst =
        some none) := by
  refine ⟨fun r => unk28_sentinel_reads_none r,
    fun u r hwf hne => unk28_write_read u r hwf hne, ?_,
    fun r => unk2c_sentinel_reads_none r,
    fun u r hwf hne => unk2c_write_read u r hwf hne, ?_⟩
  · intro u r h
    rw [show Unk28.write_option_to (some u) = Unk28.write_to u from rfl,
      unk28_write_collision u r h]
    rfl
  · intro u r h
    rw [show Unk2C.write_option_to (some u) = Unk2C.write_to u from rfl,
      unk2c_write_collision u r h]
    rfl

/-- Witness for C9 at concrete records: the sentinel round-trips, an
all-zero record round-trips, and a record with first field `-1` collapses to
`None`. -/
theorem unk_write_option_roundtrip_witness :
    Unk28.read_option_from (Unk28.write_option_to none ++ [3]) = some (none, [3]) ∧
    Unk28.read_option_from (Unk28.write_option_to (some ⟨0, 0, 0, 0, 0, 0, 0, 0, 0, 0, 0, 0, 0, 0⟩) ++ []) =
      some (some ⟨0, 0, 0, 0, 0, 0, 0, 0, 0, 0, 0, 0, 0, 0⟩, []) ∧
    (Unk28.read_option_from (Unk28.write_option_to (some ⟨-1, 0, 0, 0, 0, 0, 0, 0, 0, 0, 0, 0, 0, 0⟩) ++ [])).map Prod.fst =
      some none ∧
    Unk2C.read_option_from (Unk2C.write_option_to none ++ [3]) = some (none, [3]) ∧
    Unk2C.read_option_from (Unk2C.write_option_to (some ⟨0, 0, 0, 0, 0, 0, 0, 0⟩) ++ []) =
      some (some ⟨0, 0, 0, 0, 0, 0, 0, 0⟩, []) ∧
    (Unk2C.read_option_from (Unk2C.write_option_to (some ⟨-1, 0, 0, 0, 0, 0, 0, 0⟩) ++ [])).map Prod.fst =
      some none :=
  ⟨unk_write_option_roundtrip.1 [3],
   unk_write_option_roundtrip.2.1 ⟨0, 0, 0, 0, 0, 0, 0, 0, 0, 0, 0, 0, 0, 0⟩ [] (by decide) (by decide),
   unk_write_option_roundtrip.2.2.1 ⟨-1, 0, 0, 0, 0, 0, 0, 0, 0, 0, 0, 0, 0, 0⟩ [] (by decide),
   unk_write_option_roundtrip.2.2.2.1 [3],
   unk_write_option_roundtrip.2.2.2.2.1 ⟨0, 0, 0, 0, 0, 0, 0, 0⟩ [] (by decide) (by decide),
   unk_write_option_roundtrip.2.2.2.2.2 ⟨-1, 0, 0, 0, 0, 0, 0, 0⟩ [] (by decide)⟩

end Unplug

namespace Unplug

/-- C7 counterexample: the header and the event table are not written in
big-endian byte order; at a concrete header (offsets `52`/`72`) and a
one-entry table the emitted bytes differ from the all-big-endian encoding
the claim asserts. -/
theorem stage_layer_big_endian_cx :
    Header.write_to ⟨52, 72, 0, none, none, none, none, none, none, 0, none, none, none⟩ ≠
      headerBytesBE ⟨52, 72, 0, none, none, none, none, none, none, 0, none, none, none⟩ ∧
    EventTable.write_to ⟨[1]⟩ ≠ eventTableBytesBE ⟨[1]⟩ := by
  exact ⟨by decide, by decide⟩

/-- C7 amended: the stage layer mixes byte orders: `Header` scalars and
event-table entries are written little-endian, while `Settings`, `Unk28` and
`Unk2C` fields are written (and read back) big-endian. -/
theorem stage_layer_endianness_mixed :
    (∀ h : Header, Header.write_to h = headerBytesLE h) ∧
    (∀ t : EventTable, EventTable.write_to t = eventTableBytesLE t) ∧
    (∀ h : Header, h.settings_offset < 4294967296 →
      (readU32LE (Header.write_to h)).map Prod.fst = some h.settings_offset) ∧
    (∀ s : Settings, Settings.WF s →
      (readI32BE (Settings.write_to s)).map Prod.fst = some s.unk_00) ∧
    (∀ u : Unk28, Unk28.WF u →
      (readI32BE (Unk28.write_to u)).map Prod.fst = some u.unk_00) ∧
    (∀ u : Unk2C, Unk2C.WF u →
      (readI32BE (Unk2C.write_to u)).map Prod.fst = some u.unk_00) := by
  refine ⟨?_, fun t => rfl, ?_, ?_, ?_, ?_⟩
  · intro h
    simp [Header.write_to, headerBytesLE, Header.scalarFields]
  · intro h hlt
    simp only [Header.write_to, u32leBytes, List.cons_append, readU32LE,
      Option.map_some]
    rw [u32FromLE_bytes _ hlt]
    rfl
  · intro s hwf
    simp only [Settings.write_to, i32beBytes, u32beBytes, List.cons_append,
      readI32BE, Option.map_some]
    rw [i32FromBE_repr _ hwf.1 hwf.2.1]
    rfl
  · intro u hwf
    simp only [Unk28.write_to, i32beBytes, u32beBytes, List.cons_append,
      readI32BE, Option.map_some]
    rw [i32FromBE_repr _ hwf.1.1 hwf.1.2]
    rfl
  · intro u hwf
    simp only [Unk2C.write_to, i32beBytes, u32beBytes, List.cons_append,
      readI32BE, Option.map_some]
    rw [i32FromBE_repr _ hwf.1.1 hwf.1.2]
    rfl

/-- Witness for C7 amended at concrete values: the little-endian header
encoding agrees with its per-field little-endian form and the big-endian
records decode their first field back. -/
theorem stage_layer_endianness_mixed_witness :
    Header.write_to ⟨52, 72, 0, none, none, none, none, none, none, 0, none, none, none⟩ =
      headerBytesLE ⟨52, 72, 0, none, none, none, none, none, none, 0, none, none, none⟩ ∧
    (readU32LE (Header.write_to ⟨52, 72, 0, none, none, none, none, none, none, 0, none,
      none, none⟩)).map Prod.fst = some 52 ∧
    (readI32BE (Settings.write_to ⟨-3, 0, 0, 0, 0, 0, 0, 0, 0, 0, 0⟩)).map Prod.fst =
      some (-3) ∧
    (readI32BE (Unk28.write_to ⟨-7, 0, 0, 0, 0, 0, 0, 0, 0, 0, 0, 0, 0, 0⟩)).map Prod.fst =
      some (-7) ∧
    (readI32BE (Unk2C.write_to ⟨-9, 0, 0, 0, 0, 0, 0, 0⟩)).map Prod.fst = some (-9) :=
  ⟨stage_layer_endianness_mixed.1 _,
   stage_layer_endianness_mixed.2.2.1 _ (by decide),
   stage_layer_endianness_mixed.2.2.2.1 ⟨-3, 0, 0, 0, 0, 0, 0, 0, 0, 0, 0⟩ (by decide),
   stage_layer_endianness_mixed.2.2.2.2.1 ⟨-7, 0, 0, 0, 0, 0, 0, 0, 0, 0, 0, 0, 0, 0⟩
     (by decide),
   stage_layer_endianness_mixed.2.2.2.2.2 ⟨-9, 0, 0, 0, 0, 0, 0, 0⟩ (by decide)⟩

end Unplug

namespace Unplug

theorem lookup_mem (l : List (Nat × Nat)) (a b : Nat) (h : l.lookup a = some b) :
    (a, b) ∈ l := by
  induction l with
  | nil => simp [List.lookup] at h
  | cons p t ih =>
    obtain ⟨k, v⟩ := p
    simp only [List.lookup] at h
    split at h
    · cases h
      have : a = k := by
        rename_i heq
        simpa using heq
      subst this
      exact List.mem_cons_self _ _
    · exact List.mem_cons_of_mem _ (ih h)

/-- C4: within one `ScriptWriter` session, a second `write_subroutine` call
with the same `BlockId` returns the identical offset and leaves the writer
(stream and cache) unchanged, so the output holds one physical copy. -/
theorem script_writer_dedup (subBytes : Nat → List Nat) (sw : ScriptWriter)
    (b : Nat) :
    ((sw.write_subroutine subBytes b).2.write_subroutine subBytes b).1 =
      (sw.write_subroutine subBytes b).1 ∧
    ((sw.write_subroutine subBytes b).2.write_subroutine subBytes b).2 =
      (sw.write_subroutine subBytes b).2 := by
  unfold ScriptWriter.write_subroutine
  match hl : sw.cache.lookup b with
  | some off => simp [hl]
  | none => simp [hl, List.lookup]

theorem emit_pos (s : WStream) (b : List Nat) :
    (s.emit b).pos = s.pos + b.length := rfl

theorem writeAt_length (data : List Nat) (pos : Nat) (bytes : List Nat) :
    (writeAt data pos bytes).length = max data.length (pos + bytes.length) := by
  simp [writeAt]
  omega

theorem emit_data_length (s : WStream) (b : List Nat) :
    (s.emit b).data.length = max s.data.length (s.pos + b.length) := by
  simp [WStream.emit, writeAt_length]

theorem emit_pos_le_length (s : WStream) (b : List Nat) :
    (s.emit b).pos ≤ (s.emit b).data.length := by
  rw [emit_pos, emit_data_length]
  omega

theorem emit_length_mono (s : WStream) (b : List Nat) :
    s.data.length ≤ (s.emit b).data.length := by
  rw [emit_data_length]
  omega

theorem writeAt_take_of_le (data : List Nat) (pos : Nat) (bytes : List Nat)
    (k : Nat) (hk : k ≤ pos) (hd : k ≤ data.length) :
    (writeAt data pos bytes).take k = data.take k := by
  unfold writeAt
  rw [List.append_assoc, List.append_assoc]
  rw [List.take_append_eq_append_take]
  rw [List.take_take, min_eq_left hk]
  have h0 : k - (List.take pos data).length = 0 := by
    simp [List.length_take]
    omega
  rw [h0, List.take_zero, List.append_nil]

theorem writeAt_segment (data : List Nat) (pos : Nat) (bytes : List Nat)
    (hp : pos ≤ data.length) :
    ((writeAt data pos bytes).drop pos).take bytes.length = bytes := by
  unfold writeAt
  rw [Nat.sub_eq_zero_of_le hp, List.replicate_zero, List.append_nil]
  have hlen : (List.take pos data).length = pos := by
    simp [List.length_take]
    omega
  rw [List.append_assoc, List.drop_left' hlen, List.take_left' rfl]

end Unplug

namespace Unplug

theorem header_write_length (h : Header) : (Header.write_to h).length = 52 := by
  simp [Header.write_to, u32leBytes]

theorem settings_write_length (s : Settings) : (Settings.write_to s).length = 20 := by
  simp [Settings.write_to, i32beBytes, i16beBytes, u8Bytes, u32beBytes]

theorem flatten_u32le_length (l : List Nat) :
    ((l.map u32leBytes).flatten).length = 4 * l.length := by
  induction l with
  | nil => rfl
  | cons x t ih =>
    simp only [List.map_cons, List.flatten_cons, List.length_append, ih,
      u32leBytes, List.length_cons, List.length_nil]
    omega

theorem eventTable_write_length (t : EventTable) :
    (EventTable.write_to t).length = 4 * t.entry_points.length + 4 := by
  unfold EventTable.write_to
  rw [List.length_append, flatten_u32le_length]
  simp [i32leBytes, u32leBytes]

theorem write_subroutine_facts (sb : Nat → List Nat) (sw : ScriptWriter) (b : Nat)
    (h1 : 0 < sw.stream.pos) (h2 : ∀ p ∈ sw.cache, 0 < p.2) :
    0 < (sw.write_subroutine sb b).1 ∧
    0 < (sw.write_subroutine sb b).2.stream.pos ∧
    (∀ p ∈ (sw.write_subroutine sb b).2.cache, 0 < p.2) ∧
    sw.stream.data.length ≤ (sw.write_subroutine sb b).2.stream.data.length := by
  unfold ScriptWriter.write_subroutine
  match hl : sw.cache.lookup b with
  | some off =>
    simp only [hl]
    exact ⟨h2 _ (lookup_mem _ _ _ hl), h1, h2, le_refl _⟩
  | none =>
    simp only [hl]
    refine ⟨h1, ?_, ?_, emit_length_mono _ _⟩
    · rw [emit_pos]
      omega
    · intro p hp
      rcases List.mem_cons.mp hp with h | h
      · rw [h]
        exact h1
      · exact h2 _ h

theorem writeHook_facts (sb : Nat → List Nat) (hook : Option Nat) (sw : ScriptWriter)
    (h1 : 0 < sw.stream.pos) (h2 : ∀ p ∈ sw.cache, 0 < p.2) :
    ((writeHook sb hook sw).1.isSome ↔ hook.isSome) ∧
    (optU32 (writeHook sb hook sw).1 ≠ 0 ↔ hook.isSome) ∧
    0 < (writeHook sb hook sw).2.stream.pos ∧
    (∀ p ∈ (writeHook sb hook sw).2.cache, 0 < p.2) ∧
    sw.stream.data.length ≤ (writeHook sb hook sw).2.stream.data.length := by
  cases hook with
  | none =>
    refine ⟨by simp [writeHook], by simp [writeHook, optU32], h1, h2, le_refl _⟩
  | some bb =>
    obtain ⟨f1, f2, f3, f4⟩ := write_subroutine_facts sb sw bb h1 h2
    simp only [writeHook]
    have hnz : nonZeroU32New (sw.write_subroutine sb bb).1 =
        some (sw.write_subroutine sb bb).1 := by
      unfold nonZeroU32New
      rw [if_neg (by omega)]
    refine ⟨by simp [hnz], ?_, f2, f3, f4⟩
    rw [hnz]
    simp only [optU32, Option.getD_some, Option.isSome_some, iff_true]
    omega

theorem writeObjectEvents_facts (sb : Nat → List Nat) (objs : List Object)
    (sw : ScriptWriter)
    (h1 : 0 < sw.stream.pos) (h2 : ∀ p ∈ sw.cache, 0 < p.2) :
    (writeObjectEvents sb objs sw).1.length = objs.length ∧
    (∀ i : Nat, (writeObjectEvents sb objs sw).1.getD i 0 ≠ 0 ↔
      ((objs.getD i ⟨none⟩).script).isSome) ∧
    sw.stream.data.length ≤ (writeObjectEvents sb objs sw).2.stream.data.length := by
  induction objs generalizing sw with
  | nil =>
    refine ⟨rfl, ?_, le_refl _⟩
    intro i
    simp [writeObjectEvents, List.getD]
  | cons o t ih =>
    cases ho : o.script with
    | some ev =>
      obtain ⟨f1, f2, f3, f4⟩ := write_subroutine_facts sb sw ev h1 h2
      obtain ⟨g1, g2, g3⟩ := ih (sw.write_subroutine sb ev).2 f2 f3
      simp only [writeObjectEvents, ho]
      refine ⟨by simpa using g1, ?_, le_trans f4 g3⟩
      intro i
      cases i with
      | zero =>
        simp only [List.getD_cons_zero, ho, Option.isSome_some, iff_true]
        omega
      | succ j =>
        simpa using g2 j
    | none =>
      obtain ⟨g1, g2, g3⟩ := ih sw h1 h2
      simp only [writeObjectEvents, ho]
      refine ⟨by simpa using g1, ?_, g3⟩
      intro i
      cases i with
      | zero => simp [ho]
      | succ j => simpa using g2 j

end Unplug

namespace Unplug

theorem writeSections_facts (st : Stage) (ob ab : List Nat) (w0 : WStream)
    (h0 : w0.pos = 0) :
    (Stage.writeSections st ob ab w0).settings_offset = 52 ∧
    (Stage.writeSections st ob ab w0).objects_offset = 72 ∧
    (Stage.writeSections st ob ab w0).events_offset = 72 + ob.length ∧
    72 + ob.length + (4 * st.objects.length + 4) ≤
      (Stage.writeSections st ob ab w0).afterSections.pos ∧
    (Stage.writeSections st ob ab w0).afterSections.pos ≤
      (Stage.writeSections st ob ab w0).afterSections.data.length := by
  simp only [Stage.writeSections]
  cases h28 : st.unk_28.isEmpty <;> cases h2c : st.unk_2c.isEmpty <;>
    cases h30 : st.unk_30.isEmpty <;>
    simp only [h28, h2c, h30, Bool.false_eq_true, if_true, if_false] <;>
    simp only [emit_pos, emit_data_length, header_write_length,
      settings_write_length, eventTable_write_length, List.length_replicate, h0] <;>
    refine ⟨trivial, trivial, trivial, ?_, ?_⟩ <;> omega

end Unplug

namespace Unplug

theorem writeAt_zero_take (data bytes : List Nat) :
    (writeAt data 0 bytes).take bytes.length = bytes := by
  simpa using writeAt_segment data 0 bytes (Nat.zero_le _)

theorem final_rewrite_take (S : WStream) (hdrb evb : List Nat) (eo : Nat)
    (hh : hdrb.length = 52) (he : 52 ≤ eo) :
    ((((S.seek 0).emit hdrb).seek eo).emit evb).data.take 52 = hdrb := by
  simp only [WStream.emit, WStream.seek]
  rw [writeAt_take_of_le _ _ _ 52 he]
  · rw [← hh, writeAt_zero_take]
  · rw [writeAt_length]
    omega

theorem final_rewrite_segment (S : WStream) (hdrb evb : List Nat) (eo : Nat)
    (hh : hdrb.length = 52) (he : 52 ≤ eo) (hS : eo ≤ S.data.length) :
    (((((S.seek 0).emit hdrb).seek eo).emit evb).data.drop eo).take evb.length = evb := by
  simp only [WStream.emit, WStream.seek]
  rw [writeAt_segment]
  rw [writeAt_length]
  omega

theorem header_default_zero_bytes :
    Header.write_to Header.default = List.replicate 52 0 := by decide

theorem zero_entries_bytes (n : Nat) :
    ((List.replicate n (0 : Nat)).map u32leBytes).flatten = List.replicate (4 * n) 0 := by
  induction n with
  | zero => rfl
  | succ k ih =>
    rw [List.replicate_succ, List.map_cons, List.flatten_cons, ih]
    rw [show 4 * (k + 1) = 4 * k + 1 + 1 + 1 + 1 by omega]
    rw [List.replicate_succ, List.replicate_succ, List.replicate_succ, List.replicate_succ]
    rfl

theorem eventTable_zero_bytes (n : Nat) :
    EventTable.write_to ⟨List.replicate n 0⟩ =
      List.replicate (4 * n) 0 ++ i32leBytes (-1) := by
  unfold EventTable.write_to
  rw [zero_entries_bytes]

end Unplug

namespace Unplug

theorem stage_write_master (st : Stage) (ob ab : List Nat) (sb : Nat → List Nat)
    (w0 : WStream) (h0 : w0.pos = 0) :
    (Stage.write_to st ob ab sb w0).2.1.settings_offset = 52 ∧
    (Stage.write_to st ob ab sb w0).2.1.objects_offset = 72 ∧
    (Stage.write_to st ob ab sb w0).2.1.events_offset = 72 + ob.length ∧
    (optU32 (Stage.write_to st ob ab sb w0).2.1.on_prologue ≠ 0 ↔ st.on_prologue.isSome) ∧
    (optU32 (Stage.write_to st ob ab sb w0).2.1.on_startup ≠ 0 ↔ st.on_startup.isSome) ∧
    (optU32 (Stage.write_to st ob ab sb w0).2.1.on_dead ≠ 0 ↔ st.on_dead.isSome) ∧
    (optU32 (Stage.write_to st ob ab sb w0).2.1.on_pose ≠ 0 ↔ st.on_pose.isSome) ∧
    (optU32 (Stage.write_to st ob ab sb w0).2.1.on_time_cycle ≠ 0 ↔ st.on_time_cycle.isSome) ∧
    (optU32 (Stage.write_to st ob ab sb w0).2.1.on_time_up ≠ 0 ↔ st.on_time_up.isSome) ∧
    (Stage.write_to st ob ab sb w0).2.2.length = st.objects.length ∧
    (∀ i : Nat, (Stage.write_to st ob ab sb w0).2.2.getD i 0 ≠ 0 ↔
      ((st.objects.getD i ⟨none⟩).script).isSome) ∧
    (Stage.write_to st ob ab sb w0).1.data.take 52 = Header.write_to (Stage.write_to st ob ab sb w0).2.1 ∧
    ((Stage.write_to st ob ab sb w0).1.data.drop (Stage.write_to st ob ab sb w0).2.1.events_offset).take
        (EventTable.write_to (⟨(Stage.write_to st ob ab sb w0).2.2⟩ : EventTable)).length =
      EventTable.write_to (⟨(Stage.write_to st ob ab sb w0).2.2⟩ : EventTable) := by
  obtain ⟨s1, s2, s3, s4, s5⟩ := writeSections_facts st ob ab w0 h0
  simp only [Stage.write_to]
  set L := Stage.writeSections st ob ab w0 with hL
  have p0 : 0 < L.afterSections.pos := by omega
  have c0 : ∀ p ∈ ([] : List (Nat × Nat)), 0 < p.2 := by
    intro p hp
    exact absurd hp (List.not_mem_nil p)
  obtain ⟨a1, a2, a3, a4, a5⟩ := writeHook_facts sb st.on_prologue (⟨L.afterSections, []⟩ : ScriptWriter) p0 c0
  set k1 := writeHook sb st.on_prologue (⟨L.afterSections, []⟩ : ScriptWriter) with hk1
  obtain ⟨b1, b2, b3, b4, b5⟩ := writeHook_facts sb st.on_startup k1.2 a3 a4
  set k2 := writeHook sb st.on_startup k1.2 with hk2
  obtain ⟨c1, c2, c3, c4, c5⟩ := writeHook_facts sb st.on_dead k2.2 b3 b4
  set k3 := writeHook sb st.on_dead k2.2 with hk3
  obtain ⟨d1, d2, d3, d4, d5⟩ := writeHook_facts sb st.on_pose k3.2 c3 c4
  set k4 := writeHook sb st.on_pose k3.2 with hk4
  obtain ⟨e1, e2, e3, e4, e5⟩ := writeHook_facts sb st.on_time_cycle k4.2 d3 d4
  set k5 := writeHook sb st.on_time_cycle k4.2 with hk5
  obtain ⟨f1, f2, f3, f4, f5⟩ := writeHook_facts sb st.on_time_up k5.2 e3 e4
  set k6 := writeHook sb st.on_time_up k5.2 with hk6
  obtain ⟨q1, q2, q3⟩ := writeObjectEvents_facts sb st.objects k6.2 f3 f4
  set ev := writeObjectEvents sb st.objects k6.2 with hev
  have hlenchain : L.afterSections.data.length ≤ ev.2.stream.data.length :=
    le_trans a5 (le_trans b5 (le_trans c5 (le_trans d5 (le_trans e5 (le_trans f5 q3)))))
  have heo : L.events_offset ≤ ev.2.stream.data.length := by omega
  refine ⟨s1, s2, s3, a2, b2, c2, d2, e2, f2, q1, q2, ?_, ?_⟩
  · exact final_rewrite_take ev.2.stream _ _ _ (header_write_length _) (by omega)
  · exact final_rewrite_segment ev.2.stream _ _ _ (header_write_length _) (by omega) heo

end Unplug

namespace Unplug

/-- C10: the layout assertions of `Stage::write_to` hold: `Header::write_to`
emits exactly 52 bytes and `Settings::write_to` exactly 20, so from position
`0` the stream stands at `EXPECTED_SETTINGS_OFFSET` after the header and at
`EXPECTED_OBJECTS_OFFSET` after the settings, and the offsets recorded by
`Stage::write_to` equal the expected constants. -/
theorem stage_write_layout_asserts :
    (∀ h : Header, (Header.write_to h).length = 52) ∧
    (∀ s : Settings, (Settings.write_to s).length = 20) ∧
    (∀ (w0 : WStream) (h : Header) (s : Settings), w0.pos = 0 →
      (w0.emit (Header.write_to h)).pos = EXPECTED_SETTINGS_OFFSET ∧
      ((w0.emit (Header.write_to h)).emit (Settings.write_to s)).pos =
        EXPECTED_OBJECTS_OFFSET) ∧
    (∀ (st : Stage) (ob ab : List Nat) (sb : Nat → List Nat) (w0 : WStream),
      w0.pos = 0 →
      (Stage.write_to st ob ab sb w0).2.1.settings_offset = EXPECTED_SETTINGS_OFFSET ∧
      (Stage.write_to st ob ab sb w0).2.1.objects_offset = EXPECTED_OBJECTS_OFFSET) := by
  refine ⟨header_write_length, settings_write_length, ?_, ?_⟩
  · intro w0 h s h0
    constructor
    · rw [emit_pos, header_write_length, h0]
      decide
    · rw [emit_pos, emit_pos, header_write_length, settings_write_length, h0]
      decide
  · intro st ob ab sb w0 h0
    obtain ⟨m1, m2, _⟩ := stage_write_master st ob ab sb w0 h0
    exact ⟨m1, m2⟩

/-- Witness for C10: a concrete empty stage written from position `0`
records offsets `52` and `72`, and the two emit positions are exact. -/
theorem stage_write_layout_asserts_witness :
    ((⟨[], 0⟩ : WStream).emit (Header.write_to Header.default)).pos =
      EXPECTED_SETTINGS_OFFSET ∧
    (Stage.write_to ⟨[], none, none, none, none, none, none, ⟨0, 0, 0, 0, 0, 0, 0, 0, 0, 0, 0⟩, [], [], []⟩
      [] [] (fun _ => []) ⟨[], 0⟩).2.1.settings_offset = EXPECTED_SETTINGS_OFFSET ∧
    (Stage.write_to ⟨[], none, none, none, none, none, none, ⟨0, 0, 0, 0, 0, 0, 0, 0, 0, 0, 0⟩, [], [], []⟩
      [] [] (fun _ => []) ⟨[], 0⟩).2.1.objects_offset = EXPECTED_OBJECTS_OFFSET :=
  ⟨(stage_write_layout_asserts.2.2.1 ⟨[], 0⟩ Header.default
      ⟨0, 0, 0, 0, 0, 0, 0, 0, 0, 0, 0⟩ rfl).1,
   (stage_write_layout_asserts.2.2.2 ⟨[], none, none, none, none, none, none, ⟨0, 0, 0, 0, 0, 0, 0, 0, 0, 0, 0⟩, [], [], []⟩
      [] [] (fun _ => []) ⟨[], 0⟩ rfl).1,
   (stage_write_layout_asserts.2.2.2 ⟨[], none, none, none, none, none, none, ⟨0, 0, 0, 0, 0, 0, 0, 0, 0, 0, 0⟩, [], [], []⟩
      [] [] (fun _ => []) ⟨[], 0⟩ rfl).2⟩

/-- C5: the modelled `write_subroutine` never returns `0` from a state with
positive position and positive cached offsets, and after `Stage::write_to`
each written hook field is nonzero exactly when the corresponding stage hook
was `Some`, and event entry `i` is nonzero exactly when object `i` has a
script. -/
theorem stage_write_hook_fields_iff :
    (∀ (sb : Nat → List Nat) (sw : ScriptWriter) (b : Nat),
      0 < sw.stream.pos → (∀ p ∈ sw.cache, 0 < p.2) →
      (sw.write_subroutine sb b).1 ≠ 0) ∧
    (∀ (st : Stage) (ob ab : List Nat) (sb : Nat → List Nat) (w0 : WStream),
      w0.pos = 0 →
      (optU32 (Stage.write_to st ob ab sb w0).2.1.on_prologue ≠ 0 ↔ st.on_prologue.isSome) ∧
      (optU32 (Stage.write_to st ob ab sb w0).2.1.on_startup ≠ 0 ↔ st.on_startup.isSome) ∧
      (optU32 (Stage.write_to st ob ab sb w0).2.1.on_dead ≠ 0 ↔ st.on_dead.isSome) ∧
      (optU32 (Stage.write_to st ob ab sb w0).2.1.on_pose ≠ 0 ↔ st.on_pose.isSome) ∧
      (optU32 (Stage.write_to st ob ab sb w0).2.1.on_time_cycle ≠ 0 ↔ st.on_time_cycle.isSome) ∧
      (optU32 (Stage.write_to st ob ab sb w0).2.1.on_time_up ≠ 0 ↔ st.on_time_up.isSome) ∧
      (∀ i : Nat, (Stage.write_to st ob ab sb w0).2.2.getD i 0 ≠ 0 ↔
        ((st.objects.getD i ⟨none⟩).script).isSome)) := by
  refine ⟨?_, ?_⟩
  · intro sb sw b h1 h2
    have hf := (write_subroutine_facts sb sw b h1 h2).1
    omega
  · intro st ob ab sb w0 h0
    obtain ⟨_, _, _, m4a, m4b, m4c, m4d, m4e, m4f, _, m6, _, _⟩ :=
      stage_write_master st ob ab sb w0 h0
    exact ⟨m4a, m4b, m4c, m4d, m4e, m4f, m6⟩

/-- Witness for C5: a concrete write session returns a nonzero offset, and a
concrete stage with a prologue hook and one scripted object records nonzero
hook and entry values. -/
theorem stage_write_hook_fields_iff_witness :
    ((⟨⟨[1], 5⟩, []⟩ : ScriptWriter).write_subroutine (fun _ => [0]) 7).1 ≠ 0 ∧
    (optU32 (Stage.write_to ⟨[⟨some 4⟩], some 3, none, none, none, none, none, ⟨0, 0, 0, 0, 0, 0, 0, 0, 0, 0, 0⟩, [], [], []⟩
        [] [] (fun _ => [0]) ⟨[], 0⟩).2.1.on_prologue ≠ 0 ↔
      (some 3 : Option Nat).isSome) ∧
    ((Stage.write_to ⟨[⟨some 4⟩], some 3, none, none, none, none, none, ⟨0, 0, 0, 0, 0, 0, 0, 0, 0, 0, 0⟩, [], [], []⟩
        [] [] (fun _ => [0]) ⟨[], 0⟩).2.2.getD 0 0 ≠ 0 ↔
      (some 4 : Option Nat).isSome) :=
  ⟨stage_write_hook_fields_iff.1 (fun _ => [0]) ⟨⟨[1], 5⟩, []⟩ 7 (by decide)
      (by intro p hp; exact absurd hp (List.not_mem_nil p)),
   (stage_write_hook_fields_iff.2 ⟨[⟨some 4⟩], some 3, none, none, none, none, none, ⟨0, 0, 0, 0, 0, 0, 0, 0, 0, 0, 0⟩, [], [], []⟩
      [] [] (fun _ => [0]) ⟨[], 0⟩ rfl).1,
   (stage_write_hook_fields_iff.2 ⟨[⟨some 4⟩], some 3, none, none, none, none, none, ⟨0, 0, 0, 0, 0, 0, 0, 0, 0, 0, 0⟩, [], [], []⟩
      [] [] (fun _ => [0]) ⟨[], 0⟩ rfl).2.2.2.2.2.2 0⟩

/-- C6: `Stage::write_to` first writes an all-zero placeholder header and
all-zero event entries, then seeks back and rewrites both: in the final
stream the first 52 bytes are the encoding of the final header (with the
recorded hook offsets) and the event-table region holds the final entries,
one per object. -/
theorem stage_write_rewrites_header_events :
    Header.write_to Header.default = List.replicate 52 0 ∧
    (∀ n : Nat, EventTable.write_to ⟨List.replicate n 0⟩ =
      List.replicate (4 * n) 0 ++ i32leBytes (-1)) ∧
    (∀ (st : Stage) (ob ab : List Nat) (sb : Nat → List Nat) (w0 : WStream),
      w0.pos = 0 →
      (Stage.write_to st ob ab sb w0).2.2.length = st.objects.length ∧
      (Stage.write_to st ob ab sb w0).1.data.take 52 = Header.write_to (Stage.write_to st ob ab sb w0).2.1 ∧
      ((Stage.write_to st ob ab sb w0).1.data.drop (Stage.write_to st ob ab sb w0).2.1.events_offset).take (4 * (Stage.write_to st ob ab sb w0).2.2.length + 4) =
        EventTable.write_to (⟨(Stage.write_to st ob ab sb w0).2.2⟩ : EventTable)) := by
  refine ⟨header_default_zero_bytes, eventTable_zero_bytes, ?_⟩
  intro st ob ab sb w0 h0
  obtain ⟨_, _, _, _, _, _, _, _, _, m5, _, m7, m8⟩ :=
    stage_write_master st ob ab sb w0 h0
  refine ⟨m5, m7, ?_⟩
  rw [eventTable_write_length] at m8
  dsimp only at m8
  exact m8

/-- Witness for C6 at a concrete one-object stage: the entry count is `1`,
and the final header bytes and event-table region match the recorded
values. -/
theorem stage_write_rewrites_header_events_witness :
    (Stage.write_to ⟨[⟨some 4⟩], some 3, none, none, none, none, none, ⟨0, 0, 0, 0, 0, 0, 0, 0, 0, 0, 0⟩, [], [], []⟩
      [] [] (fun _ => [0]) ⟨[], 0⟩).2.2.length = 1 ∧
    (Stage.write_to ⟨[⟨some 4⟩], some 3, none, none, none, none, none, ⟨0, 0, 0, 0, 0, 0, 0, 0, 0, 0, 0⟩, [], [], []⟩
      [] [] (fun _ => [0]) ⟨[], 0⟩).1.data.take 52 =
      Header.write_to (Stage.write_to ⟨[⟨some 4⟩], some 3, none, none, none, none, none, ⟨0, 0, 0, 0, 0, 0, 0, 0, 0, 0, 0⟩, [], [], []⟩
        [] [] (fun _ => [0]) ⟨[], 0⟩).2.1 :=
  ⟨(stage_write_rewrites_header_events.2.2 ⟨[⟨some 4⟩], some 3, none, none, none, none, none, ⟨0, 0, 0, 0, 0, 0, 0, 0, 0, 0, 0⟩, [], [], []⟩
      [] [] (fun _ => [0]) ⟨[], 0⟩ rfl).1,
   (stage_write_rewrites_header_events.2.2 ⟨[⟨some 4⟩], some 3, none, none, none, none, none, ⟨0, 0, 0, 0, 0, 0, 0, 0, 0, 0, 0⟩, [], [], []⟩
      [] [] (fun _ => [0]) ⟨[], 0⟩ rfl).2.1⟩

end Unplug
